import Mathlib

/-!
Shallow embedding of the AlertResponder repository's report/compile core
(`lib/report.go` and the compiler / receptor Lambda handlers), with
theorems checking the natural-language specification against it.

Modelling conventions:
* Go `time.Time` values are modelled as `Int` (seconds since epoch);
  durations are `Int` seconds.
* Go byte slices holding a JSON-serialized `ReportPage` are modelled by the
  inductive `PageData`: `empty` (nil / zero-length slice), `valid page`
  (the JSON encoding of `page`; `encoding/json.Marshal` cannot fail on this
  struct type and `Unmarshal` inverts it), `corrupt` (bytes that fail to
  unmarshal).
* Go maps are modelled as functions `String → Option _`; the Go zero map and
  the freshly made empty map both read as `fun _ => none`.
* External effects (DynamoDB, Step Functions, SNS, UUID generation, clock)
  are passed in as explicit parameters or as an environment of
  `Except String _`-valued calls; a Go `error` is `Except.error msg`.
* A Go nil-pointer dereference panic is modelled as `Except.error` carrying
  the Go runtime message.
-/

namespace AlertResponder

/-- ReportID from lib/report.go: `type ReportID string`. -/
abbrev ReportID := String

/-- Modelled from the spec: the `Alert` type is not under src/ (only its
callers are). Per the spec an alert carries a natural key and a rule
identifier, both free-form strings; further payload is out of scope. -/
structure Alert where
  Key : String
  Rule : String
deriving DecidableEq, Repr

structure ReportServiceUsage where
  ServiceName : String
  Principal : String
  Action : String
  LastSeen : Int
deriving DecidableEq, Repr

structure ReportMalwareScan where
  Vendor : String
  Name : String
  Positive : Bool
  Source : String
deriving DecidableEq, Repr

structure ReportMalware where
  SHA256 : String
  Timestamp : Int
  Scans : List ReportMalwareScan
  Relation : String
deriving DecidableEq, Repr

structure ReportDomain where
  Name : String
  Timestamp : Int
  Source : String
deriving DecidableEq, Repr

structure ReportURL where
  URL : String
  Timestamp : Int
  Source : String
deriving DecidableEq, Repr

structure ReportUser where
  UserName : String
  ServiceUsage : List ReportServiceUsage
deriving DecidableEq, Repr

structure ReportLocalHost where
  ID : String
  UserName : List String
  OS : List String
  IPAddr : List String
  Country : List String
  ServiceUsage : List ReportServiceUsage
deriving DecidableEq, Repr

structure ReportRemoteHost where
  ID : String
  IPAddr : List String
  Country : List String
  ASOwner : List String
  RelatedMalware : List ReportMalware
  RelatedDomains : List ReportDomain
  RelatedURLs : List ReportURL
deriving DecidableEq, Repr

/-- ReportContent from lib/report.go; the three Go maps are modelled as
functions from keys to optional values. -/
structure ReportContent where
  RemoteHosts : String → Option ReportRemoteHost
  LocalHosts : String → Option ReportLocalHost
  SubjectUsers : String → Option ReportURL

structure ReportPage where
  Title : String
  Text : List String
  LocalHost : List ReportLocalHost
  RemoteHost : List ReportRemoteHost
  SubjectUser : List ReportUser
  Author : String
deriving DecidableEq, Repr

/-- NewReportPage is a constructor of ReportPage (zero value of the struct). -/
def NewReportPage : ReportPage :=
  { Title := "", Text := [], LocalHost := [], RemoteHost := [],
    SubjectUser := [], Author := "" }

structure ReportResult where
  Severity : String
deriving DecidableEq, Repr

/-- Go zero value of `ReportContent` (all three maps nil, which read empty). -/
def zeroReportContent : ReportContent :=
  { RemoteHosts := fun _ => none, LocalHosts := fun _ => none,
    SubjectUsers := fun _ => none }

structure Report where
  ID : ReportID
  Alert : Alert
  Content : ReportContent
  Result : Option ReportResult
  Status : String

/-- ReportLocalHost.Merge from lib/report.go lines 104-111. The source
literally appends `s.Country` into `x.UserName` (line 106). -/
def ReportLocalHost.Merge (x : ReportLocalHost) (s : ReportLocalHost) :
    ReportLocalHost :=
  { ID := s.ID
    UserName := x.UserName ++ s.Country
    OS := x.OS ++ s.OS
    IPAddr := x.IPAddr ++ s.IPAddr
    Country := x.Country ++ s.Country
    ServiceUsage := x.ServiceUsage ++ s.ServiceUsage }

/-- ReportRemoteHost.Merge from lib/report.go lines 123-131. -/
def ReportRemoteHost.Merge (x : ReportRemoteHost) (s : ReportRemoteHost) :
    ReportRemoteHost :=
  { ID := s.ID
    IPAddr := x.IPAddr ++ s.IPAddr
    Country := x.Country ++ s.Country
    ASOwner := x.ASOwner ++ s.ASOwner
    RelatedMalware := x.RelatedMalware ++ s.RelatedMalware
    RelatedDomains := x.RelatedDomains ++ s.RelatedDomains
    RelatedURLs := x.RelatedURLs ++ s.RelatedURLs }

/-- Go zero value of `ReportRemoteHost` (what `h, _ := m[k]` yields on a miss). -/
def zeroReportRemoteHost : ReportRemoteHost :=
  { ID := "", IPAddr := [], Country := [], ASOwner := [],
    RelatedMalware := [], RelatedDomains := [], RelatedURLs := [] }

/-- Go zero value of `ReportLocalHost`. -/
def zeroReportLocalHost : ReportLocalHost :=
  { ID := "", UserName := [], OS := [], IPAddr := [], Country := [],
    ServiceUsage := [] }

/-- Model of a Go `[]byte` field that holds a serialized `ReportPage`. -/
inductive PageData where
  | empty
  | valid (page : ReportPage)
  | corrupt
deriving DecidableEq, Repr

structure ReportComponent where
  ReportID : ReportID
  DataID : String
  Data : PageData
  TimeToLive : Int
deriving DecidableEq, Repr

/-- NewReportComponent is a constructor of ReportComponent; the generated
UUIDv4 is passed in as `dataID`. `Data` and `TimeToLive` are Go zero values. -/
def NewReportComponent (reportID : ReportID) (dataID : String) :
    ReportComponent :=
  { ReportID := reportID, DataID := dataID, Data := PageData.empty,
    TimeToLive := 0 }

/-- SetPage sets page data with serialization (json.Marshal succeeds on this
struct type, producing a non-empty valid encoding). -/
def ReportComponent.SetPage (x : ReportComponent) (page : ReportPage) :
    ReportComponent :=
  { x with Data := PageData.valid page }

/-- Page returns the deserialized page structure; nil (`none`) when the data
is empty or fails to unmarshal. -/
def ReportComponent.Page (x : ReportComponent) : Option ReportPage :=
  match x.Data with
  | PageData.empty => none
  | PageData.valid page => some page
  | PageData.corrupt => none

/-- Submit from lib/report.go lines 176-188: stamps
`TimeToLive = now + 864000 seconds` on the component and then puts it into
the table as a new record. Returns the stamped component together with the
table after the put. -/
def ReportComponent.Submit (x : ReportComponent) (now : Int)
    (table : List ReportComponent) : ReportComponent × List ReportComponent :=
  let x' := { x with TimeToLive := now + 864000 }
  (x', table ++ [x'])

/-- FetchReportPages from lib/report.go lines 190-205: queries every
component row with the given report id and appends `data.Page()` for each
one, with no nil check on the result of `Page()`. Store-side TTL expiry is
the store's concern; `table` stands for the non-expired rows. -/
def FetchReportPages (table : List ReportComponent) (reportID : ReportID) :
    List (Option ReportPage) :=
  (table.filter (fun d => d.ReportID = reportID)).map
    (fun data => data.Page)

/-- NewReport from lib/report.go lines 207-214: only `ID` and `Alert` are
set; `Content`, `Result` and `Status` keep their Go zero values. -/
def NewReport (reportID : ReportID) (alert : Alert) : Report :=
  { ID := reportID, Alert := alert, Content := zeroReportContent,
    Result := none, Status := "" }

namespace Compiler

/-- Map write `c.RemoteHosts[k] = v` on the function model of a Go map. -/
def updMap {α : Type} (m : String → Option α) (k : String) (v : α) :
    String → Option α :=
  fun key => if key = k then some v else m key

/-- One iteration of the remote-host loop in compiler HandleRequest
lines 57-62: `h, _ := c.RemoteHosts[r.ID]; h.Merge(r); c.RemoteHosts[r.ID] = h`. -/
def stepRemote (m : String → Option ReportRemoteHost)
    (r : ReportRemoteHost) : String → Option ReportRemoteHost :=
  updMap m r.ID (((m r.ID).getD zeroReportRemoteHost).Merge r)

/-- One iteration of the local-host loop in compiler HandleRequest
lines 64-69. -/
def stepLocal (m : String → Option ReportLocalHost)
    (r : ReportLocalHost) : String → Option ReportLocalHost :=
  updMap m r.ID (((m r.ID).getD zeroReportLocalHost).Merge r)

/-- Processing of one (non-nil) page by the loop body of HandleRequest
lines 56-70: fold its remote hosts into `RemoteHosts`, then its local
hosts into `LocalHosts`. `SubjectUsers` is never touched. -/
def compilePage (c : ReportContent) (page : ReportPage) : ReportContent :=
  { c with
    RemoteHosts := page.RemoteHost.foldl stepRemote c.RemoteHosts
    LocalHosts := page.LocalHost.foldl stepLocal c.LocalHosts }

/-- Go runtime message for dereferencing a nil `*ReportPage`. -/
def nilPageErr : String :=
  "runtime error: invalid memory address or nil pointer dereference"

/-- The page loop of HandleRequest lines 56-70 over the fetched
`[]*lib.ReportPage`. Iterating `page.RemoteHost` on a nil page pointer
panics, which aborts the invocation. -/
def compileAll (c : ReportContent) :
    List (Option ReportPage) → Except String ReportContent
  | [] => Except.ok c
  | none :: _ => Except.error nilPageErr
  | some page :: rest => compileAll (compilePage c page) rest

/-- HandleRequest from functions/compiler/compiler.go lines 37-73, after
parameter building and the fetch: resets `RemoteHosts` and `LocalHosts` of
the incoming report's content to fresh empty maps (lines 52-54; note that
`SubjectUsers` is left as it came in) and runs the merge loop over the
fetched pages. -/
def HandleRequest (report : Report) (pages : List (Option ReportPage)) :
    Except String Report :=
  let c0 : ReportContent :=
    { report.Content with
      RemoteHosts := fun _ => none
      LocalHosts := fun _ => none }
  match compileAll c0 pages with
  | Except.error e => Except.error e
  | Except.ok c => Except.ok { report with Content := c }

/-- The pure merge engine: the loop of HandleRequest run from empty
mappings over a list of (valid) pages. -/
def Compile (pages : List ReportPage) : ReportContent :=
  pages.foldl compilePage zeroReportContent

end Compiler

namespace Receptor

/-- Model of one Kinesis record's payload: either it JSON-decodes into an
`Alert` or it is malformed. -/
inductive AlertData where
  | valid (a : Alert)
  | corrupt
deriving DecidableEq, Repr

structure ReceptorResponse where
  ReportIDs : List String
deriving DecidableEq, Repr

/-- The external calls made while handling one alert, as an environment of
fallible operations: the alert-map store (Lookup / Create), the delay
machines (keyed by state-machine name), and SNS publish. -/
structure ExtEnv where
  alertMapLookup : String → String → Except String (Option ReportID)
  alertMapCreate : String → String → Except String ReportID
  execDelayMachine : String → Report → Except String Unit
  publishSnsMessage : String → Report → Except String Unit

/-- ParseEvent from the receptor file, lines 134-152: decode each record in
order; on the first malformed record return the alerts decoded so far
together with the decode error. -/
def ParseEvent : List AlertData → List Alert → List Alert × Option String
  | [], alerts => (alerts, none)
  | AlertData.valid a :: rest, alerts => ParseEvent rest (alerts ++ [a])
  | AlertData.corrupt :: _, alerts =>
      (alerts, some "Invalid json format in KinesisRecord")

/-- alertToReport from the receptor file, lines 154-176: look the alert's
(key, rule) pair up in the alert map, create a fresh mapping on a miss, and
build the report with `NewReport`. -/
def alertToReport (env : ExtEnv) (alert : Alert) : Except String Report :=
  match env.alertMapLookup alert.Key alert.Rule with
  | Except.error e => Except.error e
  | Except.ok (some reportID) => Except.ok (NewReport reportID alert)
  | Except.ok none =>
    match env.alertMapCreate alert.Key alert.Rule with
    | Except.error e =>
        Except.error ("Failt to create a new alert map: " ++ e)
    | Except.ok reportID => Except.ok (NewReport reportID alert)

/-- The body of one iteration of Handler's loop (receptor lines 183-206):
correlate, start the dispatch machine, start the review machine, publish
the SNS notification; the first failure is returned with its wrapping. -/
def stepAlert (env : ExtEnv) (dispatchMachine reviewMachine reportLine : String)
    (alert : Alert) : Except String Report :=
  match alertToReport env alert with
  | Except.error e => Except.error e
  | Except.ok report =>
    match env.execDelayMachine dispatchMachine report with
    | Except.error e =>
        Except.error ("Fail to start DispatchMachine: " ++ e)
    | Except.ok _ =>
      match env.execDelayMachine reviewMachine report with
      | Except.error e =>
          Except.error ("Fail to start ReviewMachine: " ++ e)
      | Except.ok _ =>
        match env.publishSnsMessage reportLine report with
        | Except.error e => Except.error e
        | Except.ok _ => Except.ok report

/-- The loop of Handler (receptor lines 179-209) with the accumulated
response list: any step failure returns the list built so far together
with the error, leaving the remaining alerts unprocessed. -/
def HandlerGo (env : ExtEnv)
    (dispatchMachine reviewMachine reportLine : String) :
    List Alert → List String → List String × Option String
  | [], resp => (resp, none)
  | alert :: rest, resp =>
    match stepAlert env dispatchMachine reviewMachine reportLine alert with
    | Except.error e => (resp, some e)
    | Except.ok report =>
        HandlerGo env dispatchMachine reviewMachine reportLine rest
          (resp ++ [report.ID])

/-- Handler from the receptor file, lines 179-209. -/
def Handler (env : ExtEnv)
    (dispatchMachine reviewMachine reportLine : String)
    (alerts : List Alert) : List String × Option String :=
  HandlerGo env dispatchMachine reviewMachine reportLine alerts []

/-- HandleRequest from the receptor file, lines 212-234: parse the event,
run Handler, and only on full success copy the id list into the response;
every error path returns the zero `ReceptorResponse` with the error. -/
def HandleRequest (env : ExtEnv)
    (dispatchMachine reviewMachine reportLine : String)
    (records : List AlertData) : ReceptorResponse × Option String :=
  match ParseEvent records [] with
  | (_, some e) => ({ ReportIDs := [] }, some e)
  | (alerts, none) =>
    match Handler env dispatchMachine reviewMachine reportLine alerts with
    | (_, some e) => ({ ReportIDs := [] }, some e)
    | (ids, none) => ({ ReportIDs := ids }, none)

end Receptor

/-! Concrete fixtures used by the theorems below. -/

/-- A sample alert. -/
def aTest : Alert := { Key := "10.0.0.1", Rule := "R1" }

/-- Scenario B fragment F1: remote host 8.8.8.8 contributing an IP address. -/
def pF1 : ReportPage :=
  { NewReportPage with RemoteHost :=
      [{ zeroReportRemoteHost with ID := "8.8.8.8", IPAddr := ["8.8.8.8"] }] }

/-- Scenario B fragment F2: the same remote host contributing a country. -/
def pF2 : ReportPage :=
  { NewReportPage with RemoteHost :=
      [{ zeroReportRemoteHost with ID := "8.8.8.8", Country := ["US"] }] }

/-- A page whose remote host "a" contributes IP 1.1.1.1. -/
def pA : ReportPage :=
  { NewReportPage with RemoteHost :=
      [{ zeroReportRemoteHost with ID := "a", IPAddr := ["1.1.1.1"] }] }

/-- A page whose remote host "a" contributes IP 2.2.2.2. -/
def pB : ReportPage :=
  { NewReportPage with RemoteHost :=
      [{ zeroReportRemoteHost with ID := "a", IPAddr := ["2.2.2.2"] }] }

/-- A stored component whose payload deserializes to `pF1`. -/
def compGood : ReportComponent := (NewReportComponent "r1" "d1").SetPage pF1

/-- A stored component whose payload is empty, so `Page()` returns nil. -/
def compBad : ReportComponent := NewReportComponent "r1" "d2"

/-- An environment in which every external call succeeds; the alert map
resolves key `k` to report id `rid-k`. -/
def envOk : Receptor.ExtEnv :=
  { alertMapLookup := fun key _ => Except.ok (some ("rid-" ++ key))
    alertMapCreate := fun key _ => Except.ok ("rid-" ++ key)
    execDelayMachine := fun _ _ => Except.ok ()
    publishSnsMessage := fun _ _ => Except.ok () }

/-- Like `envOk`, except that the SNS publish for report `rid-bad` fails. -/
def envC5 : Receptor.ExtEnv :=
  { envOk with publishSnsMessage := fun _ report =>
      if report.ID = "rid-bad" then Except.error "sns publish failed"
      else Except.ok () }

/-- An alert whose processing fully succeeds under `envC5`. -/
def aGood : Alert := { Key := "good", Rule := "R1" }

/-- An alert whose SNS publish fails under `envC5`. -/
def aBad : Alert := { Key := "bad", Rule := "R1" }

namespace Compiler

/-- Common shape of `stepRemote` and `stepLocal`, abstracted over the key
projection, the merge operation and the zero value. -/
def stepGen {α : Type} (key : α → String) (mrg : α → α → α) (z : α)
    (m : String → Option α) (r : α) : String → Option α :=
  updMap m (key r) (mrg ((m (key r)).getD z) r)

/-- All remote-host observations for key `k` across a page list, in
encounter order of the compile loop. -/
def remoteObs (pages : List ReportPage) (k : String) : List ReportRemoteHost :=
  (pages.flatMap (fun p => p.RemoteHost)).filter (fun r => decide (r.ID = k))

/-- All local-host observations for key `k` across a page list. -/
def localObs (pages : List ReportPage) (k : String) : List ReportLocalHost :=
  (pages.flatMap (fun p => p.LocalHost)).filter (fun r => decide (r.ID = k))

end Compiler

/-- Equality of remote hosts up to reordering of the accumulated lists. -/
def RemoteHostPerm (x y : ReportRemoteHost) : Prop :=
  x.ID = y.ID ∧ x.IPAddr.Perm y.IPAddr ∧ x.Country.Perm y.Country ∧
  x.ASOwner.Perm y.ASOwner ∧ x.RelatedMalware.Perm y.RelatedMalware ∧
  x.RelatedDomains.Perm y.RelatedDomains ∧ x.RelatedURLs.Perm y.RelatedURLs

/-- Equality of local hosts up to reordering of the accumulated lists. -/
def LocalHostPerm (x y : ReportLocalHost) : Prop :=
  x.ID = y.ID ∧ x.UserName.Perm y.UserName ∧ x.OS.Perm y.OS ∧
  x.IPAddr.Perm y.IPAddr ∧ x.Country.Perm y.Country ∧
  x.ServiceUsage.Perm y.ServiceUsage

/-- Lift a relation on values to optional values (nil matches only nil). -/
def OptPerm {α : Type} (eqv : α → α → Prop) : Option α → Option α → Prop
  | none, none => True
  | some x, some y => eqv x y
  | _, _ => False

/-! Helper lemmas characterizing the compile loop. -/

theorem stepRemote_eq_stepGen :
    Compiler.stepRemote =
      Compiler.stepGen (fun h => h.ID) ReportRemoteHost.Merge
        zeroReportRemoteHost := rfl

theorem stepLocal_eq_stepGen :
    Compiler.stepLocal =
      Compiler.stepGen (fun h => h.ID) ReportLocalHost.Merge
        zeroReportLocalHost := rfl

theorem foldl_stepGen_apply {α : Type} [DecidableEq α] (key : α → String)
    (mrg : α → α → α)
    (z : α) (hs : List α) : ∀ (m : String → Option α) (k : String),
    (hs.foldl (Compiler.stepGen key mrg z) m) k =
      if hs.filter (fun r => decide (key r = k)) = [] then m k
      else some ((hs.filter (fun r => decide (key r = k))).foldl mrg
        ((m k).getD z)) := by
  induction hs with
  | nil => intro m k; simp
  | cons r hs ih =>
    intro m k
    simp only [List.foldl_cons, List.filter_cons, ih]
    by_cases hrk : key r = k
    · subst hrk
      simp [Compiler.stepGen, Compiler.updMap]
      intro hall
      have hfe : List.filter (fun r1 => decide (key r1 = key r)) hs = [] := by
        simpa using hall
      rw [hfe]
      rfl
    · have h2 : ¬ k = key r := fun h => hrk h.symm
      simp [Compiler.stepGen, Compiler.updMap, hrk, h2]

theorem foldl_compilePage_RemoteHosts (pages : List ReportPage) :
    ∀ c : ReportContent, (pages.foldl Compiler.compilePage c).RemoteHosts =
      (pages.flatMap (fun p => p.RemoteHost)).foldl Compiler.stepRemote
        c.RemoteHosts := by
  induction pages with
  | nil => intro c; simp
  | cons p pages ih =>
    intro c
    simp [List.foldl_cons, List.flatMap_cons, List.foldl_append, ih,
      Compiler.compilePage]

theorem foldl_compilePage_LocalHosts (pages : List ReportPage) :
    ∀ c : ReportContent, (pages.foldl Compiler.compilePage c).LocalHosts =
      (pages.flatMap (fun p => p.LocalHost)).foldl Compiler.stepLocal
        c.LocalHosts := by
  induction pages with
  | nil => intro c; simp
  | cons p pages ih =>
    intro c
    simp [List.foldl_cons, List.flatMap_cons, List.foldl_append, ih,
      Compiler.compilePage]

theorem foldl_compilePage_SubjectUsers (pages : List ReportPage) :
    ∀ c : ReportContent, (pages.foldl Compiler.compilePage c).SubjectUsers =
      c.SubjectUsers := by
  induction pages with
  | nil => intro c; rfl
  | cons p pages ih => intro c; simp [ih, Compiler.compilePage]

theorem Compile_RemoteHosts_apply (pages : List ReportPage) (k : String) :
    (Compiler.Compile pages).RemoteHosts k =
      if Compiler.remoteObs pages k = [] then none
      else some ((Compiler.remoteObs pages k).foldl ReportRemoteHost.Merge
        zeroReportRemoteHost) := by
  unfold Compiler.Compile
  rw [foldl_compilePage_RemoteHosts, stepRemote_eq_stepGen,
    foldl_stepGen_apply]
  rfl

theorem Compile_LocalHosts_apply (pages : List ReportPage) (k : String) :
    (Compiler.Compile pages).LocalHosts k =
      if Compiler.localObs pages k = [] then none
      else some ((Compiler.localObs pages k).foldl ReportLocalHost.Merge
        zeroReportLocalHost) := by
  unfold Compiler.Compile
  rw [foldl_compilePage_LocalHosts, stepLocal_eq_stepGen,
    foldl_stepGen_apply]
  rfl

theorem foldl_merge_remote_eq (hs : List ReportRemoteHost) :
    ∀ x : ReportRemoteHost, hs.foldl ReportRemoteHost.Merge x =
      { ID := hs.foldl (fun _ r => r.ID) x.ID
        IPAddr := x.IPAddr ++ hs.flatMap (fun r => r.IPAddr)
        Country := x.Country ++ hs.flatMap (fun r => r.Country)
        ASOwner := x.ASOwner ++ hs.flatMap (fun r => r.ASOwner)
        RelatedMalware := x.RelatedMalware ++
          hs.flatMap (fun r => r.RelatedMalware)
        RelatedDomains := x.RelatedDomains ++
          hs.flatMap (fun r => r.RelatedDomains)
        RelatedURLs := x.RelatedURLs ++ hs.flatMap (fun r => r.RelatedURLs) } := by
  induction hs with
  | nil => intro x; simp
  | cons r hs ih =>
    intro x
    simp [List.foldl_cons, List.flatMap_cons, ih, ReportRemoteHost.Merge,
      List.append_assoc]

theorem foldl_merge_local_eq (hs : List ReportLocalHost) :
    ∀ x : ReportLocalHost, hs.foldl ReportLocalHost.Merge x =
      { ID := hs.foldl (fun _ r => r.ID) x.ID
        UserName := x.UserName ++ hs.flatMap (fun r => r.Country)
        OS := x.OS ++ hs.flatMap (fun r => r.OS)
        IPAddr := x.IPAddr ++ hs.flatMap (fun r => r.IPAddr)
        Country := x.Country ++ hs.flatMap (fun r => r.Country)
        ServiceUsage := x.ServiceUsage ++
          hs.flatMap (fun r => r.ServiceUsage) } := by
  induction hs with
  | nil => intro x; simp
  | cons r hs ih =>
    intro x
    simp [List.foldl_cons, List.flatMap_cons, ih, ReportLocalHost.Merge,
      List.append_assoc]

theorem foldl_key_of_all {α : Type} (f : α → String) (k : String)
    (hs : List α) : ∀ i : String, hs ≠ [] → (∀ r ∈ hs, f r = k) →
    hs.foldl (fun _ r => f r) i = k := by
  induction hs with
  | nil => intro i h _; exact absurd rfl h
  | cons r hs ih =>
    intro i _ hall
    simp only [List.foldl_cons]
    rcases hs with _ | ⟨r2, hs2⟩
    · simpa using hall r (List.mem_cons_self r [])
    · exact ih (f r) (by simp) fun s hsm => hall s (List.mem_cons_of_mem _ hsm)

theorem remoteObs_id_eq {pages : List ReportPage} {k : String}
    {r : ReportRemoteHost} (hr : r ∈ Compiler.remoteObs pages k) :
    r.ID = k :=
  of_decide_eq_true (List.mem_filter.mp hr).2

theorem localObs_id_eq {pages : List ReportPage} {k : String}
    {r : ReportLocalHost} (hr : r ∈ Compiler.localObs pages k) :
    r.ID = k :=
  of_decide_eq_true (List.mem_filter.mp hr).2

theorem remoteObs_perm {pages pages' : List ReportPage}
    (h : pages.Perm pages') (k : String) :
    (Compiler.remoteObs pages k).Perm (Compiler.remoteObs pages' k) :=
  (h.flatMap_right _).filter _

theorem localObs_perm {pages pages' : List ReportPage}
    (h : pages.Perm pages') (k : String) :
    (Compiler.localObs pages k).Perm (Compiler.localObs pages' k) :=
  (h.flatMap_right _).filter _

/-! Claim theorems. -/

/-- Claim C1 (code_bug), evaluation at the failing input: with one valid
fragment and one empty-payload fragment stored for report `r1`, the fetch
step keeps the failed fragment as a nil page in the returned list instead
of excluding it, and the compile step then aborts with the Go
nil-dereference panic instead of completing on the remaining valid
fragment. -/
theorem C1_fetch_keeps_nil_page_and_compile_panics :
    FetchReportPages [compGood, compBad] "r1" = [some pF1, none] ∧
    Compiler.HandleRequest (NewReport "r1" aTest)
      (FetchReportPages [compGood, compBad] "r1") =
      Except.error Compiler.nilPageErr := by
  exact ⟨rfl, rfl⟩

/-- Claim C3 (code_bug), evaluation at the failing input: `NewReport` sets
ID and Alert, leaves Content empty and Result nil as claimed, but leaves
`Status` at the Go zero value `""` rather than `"Received"`. -/
theorem C3_newReport_status_is_zero_value :
    (NewReport "report-1" aTest).ID = "report-1" ∧
    (NewReport "report-1" aTest).Alert = aTest ∧
    (∀ k, (NewReport "report-1" aTest).Content.RemoteHosts k = none) ∧
    (∀ k, (NewReport "report-1" aTest).Content.LocalHosts k = none) ∧
    (∀ k, (NewReport "report-1" aTest).Content.SubjectUsers k = none) ∧
    (NewReport "report-1" aTest).Result = none ∧
    (NewReport "report-1" aTest).Status = "" ∧
    ("" : String) ≠ "Received" := by
  exact ⟨rfl, rfl, fun k => rfl, fun k => rfl, fun k => rfl, rfl, rfl,
    by decide⟩

/-- Claim C4 (code_bug), evaluation at the failing input: merging a source
host whose UserName is `["alice"]` and Country is `["JP"]` appends `["JP"]`
(the Country list) onto the target's UserName, not `["alice"]`, because
line 106 of lib/report.go appends `s.Country` into `x.UserName`. -/
theorem C4_merge_appends_country_into_username :
    (zeroReportLocalHost.Merge
      { zeroReportLocalHost with
          ID := "h1"
          UserName := ["alice"]
          Country := ["JP"] }).UserName = ["JP"] ∧
    (["JP"] : List String) ≠ ["alice"] := by
  exact ⟨rfl, by decide⟩

/-- Claim C8 (confirmed): `Submit` stamps the component's TimeToLive to the
submission time plus exactly 864000 seconds, which is exactly 10 days, and
writes the stamped component to the table as a new appended record. -/
theorem C8_submit_stamps_ttl (x : ReportComponent) (now : Int)
    (table : List ReportComponent) :
    (x.Submit now table).1.TimeToLive = now + 864000 ∧
    (x.Submit now table).2 = table ++ [(x.Submit now table).1] ∧
    (864000 : Int) = 10 * 24 * 60 * 60 := by
  exact ⟨rfl, rfl, by norm_num⟩

/-- Claim C9 (confirmed): `SetPage` followed by `Page` returns a non-nil
page equal to the page that was set (serialization of a `ReportPage` always
succeeds and deserialization inverts it). -/
theorem C9_setPage_page_roundtrip (x : ReportComponent) (p : ReportPage) :
    (x.SetPage p).Page = some p := rfl

/-- Claim C6 (confirmed), Scenario B: fragments F1 and F2 both observe
remote host 8.8.8.8; the compiled content holds exactly one entry for that
id, with IPAddr `["8.8.8.8"]` and Country `["US"]`, and no entry under any
other key. -/
theorem C6_scenarioB_single_merged_entry :
    (Compiler.Compile [pF1, pF2]).RemoteHosts "8.8.8.8" =
      some { ID := "8.8.8.8", IPAddr := ["8.8.8.8"], Country := ["US"],
             ASOwner := [], RelatedMalware := [], RelatedDomains := [],
             RelatedURLs := [] } ∧
    ∀ k, k ≠ "8.8.8.8" →
      (Compiler.Compile [pF1, pF2]).RemoteHosts k = none := by
  constructor
  · decide
  · intro k hk
    rw [Compile_RemoteHosts_apply]
    have hobs : Compiler.remoteObs [pF1, pF2] k = [] := by
      simp [Compiler.remoteObs, pF1, pF2, NewReportPage,
        zeroReportRemoteHost, Ne.symm hk]
    rw [if_pos hobs]

/-- Claim C6 witness: the general part applied at a key other than
8.8.8.8. -/
theorem C6_scenarioB_witness :
    (Compiler.Compile [pF1, pF2]).RemoteHosts "1.2.3.4" = none :=
  C6_scenarioB_single_merged_entry.2 "1.2.3.4" (by decide)

/-- Claim C7 (confirmed): compiling a report with zero fragments succeeds
and yields a content whose RemoteHosts, LocalHosts and SubjectUsers maps
are all empty, for any incoming report whose SubjectUsers map is empty (as
it is for every freshly constructed report; the compiler resets the other
two maps itself and never touches SubjectUsers). -/
theorem C7_compile_zero_fragments (report : Report)
    (h : ∀ k, report.Content.SubjectUsers k = none) :
    Compiler.HandleRequest report [] =
      Except.ok { report with Content :=
        { RemoteHosts := fun _ => none, LocalHosts := fun _ => none,
          SubjectUsers := fun _ => none } } := by
  have hsu : report.Content.SubjectUsers = fun _ => none := funext h
  unfold Compiler.HandleRequest
  simp only [Compiler.compileAll]
  rw [← hsu]

/-- Claim C7 witness: instantiation at a freshly constructed report. -/
theorem C7_compile_zero_fragments_witness :
    Compiler.HandleRequest (NewReport "r1" aTest) [] =
      Except.ok { NewReport "r1" aTest with Content :=
        { RemoteHosts := fun _ => none, LocalHosts := fun _ => none,
          SubjectUsers := fun _ => none } } :=
  C7_compile_zero_fragments (NewReport "r1" aTest) (fun _ => rfl)

/-- Claim C10 (confirmed): in the compiled content every stored remote host
and local host has its ID field equal to the map key it is stored under. -/
theorem C10_key_identity (pages : List ReportPage) (k : String) :
    (∀ v, (Compiler.Compile pages).RemoteHosts k = some v → v.ID = k) ∧
    (∀ v, (Compiler.Compile pages).LocalHosts k = some v → v.ID = k) := by
  constructor
  · intro v hv
    rw [Compile_RemoteHosts_apply] at hv
    by_cases hobs : Compiler.remoteObs pages k = []
    · rw [if_pos hobs] at hv; cases hv
    · rw [if_neg hobs] at hv
      cases hv
      rw [foldl_merge_remote_eq]
      exact foldl_key_of_all (fun r => r.ID) k _ _ hobs
        (fun r hr => remoteObs_id_eq hr)
  · intro v hv
    rw [Compile_LocalHosts_apply] at hv
    by_cases hobs : Compiler.localObs pages k = []
    · rw [if_pos hobs] at hv; cases hv
    · rw [if_neg hobs] at hv
      cases hv
      rw [foldl_merge_local_eq]
      exact foldl_key_of_all (fun r => r.ID) k _ _ hobs
        (fun r hr => localObs_id_eq hr)

/-- Claim C10 witness: the key-identity fact applied to the concrete
Scenario B compilation at key 8.8.8.8. -/
theorem C10_key_identity_witness :
    ({ ID := "8.8.8.8", IPAddr := ["8.8.8.8"], Country := ["US"],
       ASOwner := [], RelatedMalware := [], RelatedDomains := [],
       RelatedURLs := [] } : ReportRemoteHost).ID = "8.8.8.8" :=
  (C10_key_identity [pF1, pF2] "8.8.8.8").1 _ (by decide)

/-- Claim C2 counterexample: two pages contributing IP addresses to the
same host id produce different ReportContent values under the two orders
(the concatenated IP list differs), so Compile is not literally invariant
under permutation of the page list. -/
theorem C2_counterexample :
    Compiler.Compile [pA, pB] ≠ Compiler.Compile [pB, pA] := by
  intro h
  have h2 : (Compiler.Compile [pA, pB]).RemoteHosts "a" =
      (Compiler.Compile [pB, pA]).RemoteHosts "a" := by rw [h]
  exact absurd h2 (by decide)

/-- Claim C2 amended (proved): compiling any permutation of a page list
yields, at every key of both host mappings, the same entry up to
reordering of the accumulated observation lists: presence is identical,
the stored ID is identical, and every list field of the stored host is a
permutation of its counterpart. -/
theorem C2_compile_perm_invariant (pages pages' : List ReportPage)
    (hperm : pages.Perm pages') (k : String) :
    OptPerm RemoteHostPerm ((Compiler.Compile pages).RemoteHosts k)
      ((Compiler.Compile pages').RemoteHosts k) ∧
    OptPerm LocalHostPerm ((Compiler.Compile pages).LocalHosts k)
      ((Compiler.Compile pages').LocalHosts k) := by
  constructor
  · rw [Compile_RemoteHosts_apply, Compile_RemoteHosts_apply]
    have hp := remoteObs_perm hperm k
    by_cases hobs : Compiler.remoteObs pages k = []
    · have hobs2 : Compiler.remoteObs pages' k = [] := by
        rw [hobs] at hp
        exact hp.symm.eq_nil
      rw [if_pos hobs, if_pos hobs2]
      trivial
    · have hobs2 : ¬ Compiler.remoteObs pages' k = [] := by
        intro h0
        rw [h0] at hp
        exact hobs hp.eq_nil
      rw [if_neg hobs, if_neg hobs2]
      show RemoteHostPerm _ _
      simp only [RemoteHostPerm, foldl_merge_remote_eq, zeroReportRemoteHost,
        List.nil_append]
      exact ⟨(foldl_key_of_all (fun r => r.ID) k _ _ hobs
          (fun r hr => remoteObs_id_eq hr)).trans
          (foldl_key_of_all (fun r => r.ID) k _ _ hobs2
            (fun r hr => remoteObs_id_eq hr)).symm,
        hp.flatMap_right (fun r => r.IPAddr),
        hp.flatMap_right (fun r => r.Country),
        hp.flatMap_right (fun r => r.ASOwner),
        hp.flatMap_right (fun r => r.RelatedMalware),
        hp.flatMap_right (fun r => r.RelatedDomains),
        hp.flatMap_right (fun r => r.RelatedURLs)⟩
  · rw [Compile_LocalHosts_apply, Compile_LocalHosts_apply]
    have hp := localObs_perm hperm k
    by_cases hobs : Compiler.localObs pages k = []
    · have hobs2 : Compiler.localObs pages' k = [] := by
        rw [hobs] at hp
        exact hp.symm.eq_nil
      rw [if_pos hobs, if_pos hobs2]
      trivial
    · have hobs2 : ¬ Compiler.localObs pages' k = [] := by
        intro h0
        rw [h0] at hp
        exact hobs hp.eq_nil
      rw [if_neg hobs, if_neg hobs2]
      show LocalHostPerm _ _
      simp only [LocalHostPerm, foldl_merge_local_eq, zeroReportLocalHost,
        List.nil_append]
      exact ⟨(foldl_key_of_all (fun r => r.ID) k _ _ hobs
          (fun r hr => localObs_id_eq hr)).trans
          (foldl_key_of_all (fun r => r.ID) k _ _ hobs2
            (fun r hr => localObs_id_eq hr)).symm,
        hp.flatMap_right (fun r => r.Country),
        hp.flatMap_right (fun r => r.OS),
        hp.flatMap_right (fun r => r.IPAddr),
        hp.flatMap_right (fun r => r.Country),
        hp.flatMap_right (fun r => r.ServiceUsage)⟩

/-- Claim C5 counterexample: with the first alert succeeding (producing
`rid-good`) and the SNS publish for the second failing, the inner Handler
does return the partial list `["rid-good"]` with the error, but the batch
response returned by the Lambda boundary carries an empty ReportIDs list
next to the error, not the partial list — so the claim, which requires the
batch response to surface the partial list, is false at this input. -/
theorem C5_counterexample :
    Receptor.Handler envC5 "dm" "rm" "rl" [aGood, aBad] =
      (["rid-good"], some "sns publish failed") ∧
    (Receptor.HandleRequest envC5 "dm" "rm" "rl"
        [Receptor.AlertData.valid aGood, Receptor.AlertData.valid aBad]) =
      ({ ReportIDs := [] }, some "sns publish failed") ∧
    ([] : List String) ≠ ["rid-good"] := by
  exact ⟨by decide, by decide, by decide⟩

/-- Claim C5 amended (proved): when processing of an alert fails, the loop
stops there, leaving the remaining alerts unprocessed, and the inner
Handler surfaces the error together with the partial list of ReportIDs
accumulated so far; the Lambda boundary's batch response, however, carries
an empty ReportIDs list alongside the error (the partial list is dropped
at that boundary). -/
theorem C5_failure_stops_batch (env : Receptor.ExtEnv)
    (dm rm rl : String) (a : Alert) (rest : List Alert)
    (acc : List String) (e : String)
    (h : Receptor.stepAlert env dm rm rl a = Except.error e) :
    Receptor.HandlerGo env dm rm rl (a :: rest) acc = (acc, some e) ∧
    ∀ records alerts,
      Receptor.ParseEvent records [] = (alerts, none) →
      ∀ ids, Receptor.Handler env dm rm rl alerts = (ids, some e) →
        Receptor.HandleRequest env dm rm rl records =
          ({ ReportIDs := [] }, some e) := by
  constructor
  · simp [Receptor.HandlerGo, h]
  · intro records alerts hpe ids hh
    simp [Receptor.HandleRequest, hpe, hh]

/-- Claim C5 witness: the amended statement applied to a concrete
environment in which the failing alert heads the batch. -/
theorem C5_failure_stops_batch_witness :
    Receptor.HandlerGo envC5 "dm" "rm" "rl" [aBad, aGood] ["rid-0"] =
      (["rid-0"], some "sns publish failed") ∧
    Receptor.HandleRequest envC5 "dm" "rm" "rl"
        [Receptor.AlertData.valid aBad] =
      ({ ReportIDs := [] }, some "sns publish failed") := by
  have h := C5_failure_stops_batch envC5 "dm" "rm" "rl" aBad [aGood]
    ["rid-0"] "sns publish failed" rfl
  exact ⟨h.1, h.2 [Receptor.AlertData.valid aBad] [aBad] (by decide) []
    (by decide)⟩

/-- Claim C2 witness: the amended invariance applied to a concrete
transposition of two pages. -/
theorem C2_compile_perm_invariant_witness :
    OptPerm RemoteHostPerm ((Compiler.Compile [pA, pB]).RemoteHosts "a")
      ((Compiler.Compile [pB, pA]).RemoteHosts "a") ∧
    OptPerm LocalHostPerm ((Compiler.Compile [pA, pB]).LocalHosts "a")
      ((Compiler.Compile [pB, pA]).LocalHosts "a") :=
  C2_compile_perm_invariant [pA, pB] [pB, pA] (by decide) "a"

end AlertResponder
